import Mathlib

/-
Shallow embedding of the Blynk protocol client in src/BlynkLib.py
(class Blynk: framing, message-id generation, receive buffering,
rate-limited send path, heartbeat liveness, inbound dispatcher and
the authenticated-phase loop body of run()).

Modelling conventions:
- bytes are Nat values < 256, byte strings are List Nat;
- the TCP socket is a queue (List Nat) of bytes already available to
  conn.recv; conn.recv(n) returns the next min(n, available) bytes,
  and an empty queue corresponds to the timeout / EAGAIN paths of
  _recv, which return b'';
- conn.send succeeds on the first attempt (an accepting transport, as
  every claim about the send path stipulates), so the EAGAIN retry
  loop of _send reduces to a single successful send;
- wall-clock readings (time.time()) are Int arguments;
- hardware and callback side effects are recorded as Event values;
  a HwPin stores the last value written, which is also what a read
  returns (the physical pin is external);
- Python exceptions that the library raises are PyErr values.
-/

namespace BlynkLib

/-- Byte length of the packed header, HDR_LEN in BlynkLib.py. -/
def HDR_LEN : Nat := 5

/-- MAX_MSG_PER_SEC in BlynkLib.py: per-second outbound budget. -/
def MAX_MSG_PER_SEC : Nat := 20

/-- Message type MSG_RSP. -/
def MSG_RSP : Nat := 0

/-- Message type MSG_LOGIN. -/
def MSG_LOGIN : Nat := 2

/-- Message type MSG_PING. -/
def MSG_PING : Nat := 6

/-- Message type MSG_BRIDGE. -/
def MSG_BRIDGE : Nat := 15

/-- Message type MSG_HW. -/
def MSG_HW : Nat := 20

/-- Login success status STA_SUCCESS. -/
def STA_SUCCESS : Nat := 200

/-- Heartbeat period HB_PERIOD, in seconds. -/
def HB_PERIOD : Int := 10

/-- Maximum socket timeout MAX_SOCK_TO, in seconds. -/
def MAX_SOCK_TO : Int := 5

/-- Connection state DISCONNECTED. -/
def DISCONNECTED : Nat := 0

/-- Connection state CONNECTING. -/
def CONNECTING : Nat := 1

/-- Connection state AUTHENTICATING. -/
def AUTHENTICATING : Nat := 2

/-- Connection state AUTHENTICATED. -/
def AUTHENTICATED : Nat := 3

/-- Python exceptions raised by the embedded code paths. -/
inductive PyErr where
  | valueError
  | keyError
  | indexError
  | structError
deriving DecidableEq, Repr

/-- Model of the HwPin class: mode/pull as given to the constructor,
the current _function selection, and the last written value (reads of
the physical pin are external; the model returns the stored value). -/
structure HwPin where
  mode : String
  pull : String
  fn : String
  value : Int
deriving DecidableEq, Repr

/-- HwPin.__init__(pin_num, mode, pull): _function starts empty. -/
def HwPin.init (mode pull : String) : HwPin :=
  { mode := mode, pull := pull, fn := "", value := 0 }

/-- HwPin.digital_write: selects the digital function (configuring the
pin if needed) and drives the given value. -/
def HwPin.digital_write (hp : HwPin) (v : Int) : HwPin :=
  { hp with fn := "dig", value := v }

/-- HwPin.digital_read: selects the digital function and samples the
pin (modelled as the stored value). -/
def HwPin.digital_read (hp : HwPin) : HwPin × Int :=
  ({ hp with fn := "dig" }, hp.value)

/-- HwPin.analog_write: selects the PWM function and drives the duty
cycle value. -/
def HwPin.analog_write (hp : HwPin) (v : Int) : HwPin :=
  { hp with fn := "pwm", value := v }

/-- HwPin.analog_read: selects the ADC function and samples the
channel (modelled as the stored value). -/
def HwPin.analog_read (hp : HwPin) : HwPin × Int :=
  ({ hp with fn := "ana" }, hp.value)

/-- Model of the VrPin class: whether a read and a write callback are
registered (the callback bodies are application code, external). -/
structure VrPin where
  hasRead : Bool
  hasWrite : Bool
deriving DecidableEq, Repr

/-- Observable side effects of the embedded code paths. -/
inductive Event where
  | sendCall (frame : List Nat) (anyway ok : Bool)
  | vwCall (pin : Int) (param : String)
  | vrCall (pin : Int)
  | hwNew (pin : Int) (mode pull : String)
  | digWrite (pin : Int) (v : Int)
  | anaWrite (pin : Int) (v : Int)
  | digRead (pin : Int) (v : Int)
  | anaRead (pin : Int) (v : Int)
  | dispatchHw (payload : List Nat)
  | wdtFeed
deriving DecidableEq, Repr

/-- Mutable instance state of the Blynk class (the attributes used by
the protocol engine). -/
structure Blynk where
  token : List Nat
  state : Nat
  msg_id : Nat
  tx_count : Nat
  m_time : Int
  hb_time : Int
  last_hb_id : Nat
  rx_data : List Nat
  pins_configured : Bool
  hw_pins : List (Int × HwPin)
  vr_pins : List (Int × VrPin)
  wdt : Bool
deriving DecidableEq, Repr

/-- Python dict lookup d[k] over an association list. -/
def alist_lookup {α : Type} (k : Int) : List (Int × α) → Option α
  | [] => none
  | (k2, v) :: rest => if k = k2 then some v else alist_lookup k rest

/-- Python dict assignment d[k] = v over an association list. -/
def alist_insert {α : Type} (k : Int) (v : α) : List (Int × α) → List (Int × α)
  | [] => [(k, v)]
  | (k2, v2) :: rest =>
      if k = k2 then (k, v) :: rest else (k2, v2) :: alist_insert k v rest

/-- State set up by the start of Blynk.run() (lines 317-327): message
counter at 1, empty receive buffer, no pins configured, disconnected.
The heartbeat fields are (re)initialized at authenticated-phase entry
(see auth_enter); run() leaves them from the previous connection. -/
def run_init (token : List Nat) : Blynk :=
  { token := token, state := DISCONNECTED, msg_id := 1, tx_count := 0,
    m_time := 0, hb_time := 0, last_hb_id := 0, rx_data := [],
    pins_configured := false, hw_pins := [], vr_pins := [], wdt := false }

/-- Blynk._new_msg_id (lines 211-215): pre-increment the counter,
wrapping to 1 past 0xFFFF, and return the new value. -/
def new_msg_id (b : Blynk) : Blynk × Nat :=
  let m := b.msg_id + 1
  let m := if m > 0xFFFF then 1 else m
  ({ b with msg_id := m }, m)

/-- struct.pack(HDR_FMT, ...) with HDR_FMT = "!BHH": type as one byte,
id and length as big-endian 16-bit values. -/
def pack_header (t i l : Nat) : List Nat :=
  [t % 256, i / 256 % 256, i % 256, l / 256 % 256, l % 256]

/-- struct.unpack(HDR_FMT, data): requires exactly 5 bytes (Python
raises struct.error otherwise, modelled as none). -/
def unpack_header (d : List Nat) : Option (Nat × Nat × Nat) :=
  match d with
  | [b0, b1, b2, b3, b4] => some (b0, b1 * 256 + b2, b3 * 256 + b4)
  | _ => none

/-- Blynk._recv (lines 222-238): append whatever the socket delivers
to the receive buffer; if at least `length` bytes are buffered, take
exactly `length` and keep the rest, otherwise return the empty string.
Returns (new state, remaining socket queue, data). -/
def recv (b : Blynk) (conn : List Nat) (length : Nat) :
    Blynk × List Nat × List Nat :=
  let chunk := conn.take length
  let conn2 := conn.drop length
  let rx := b.rx_data ++ chunk
  if length ≤ rx.length then
    ({ b with rx_data := rx.drop length }, conn2, rx.take length)
  else
    ({ b with rx_data := rx }, conn2, [])

/-- Blynk._send (lines 240-253): transmit unless the per-second budget
is exhausted and the send is not priority; the accepting transport
makes the retry loop succeed on the first attempt, incrementing
_tx_count. The sendCall event records the frame, the send_anyway flag
and whether the frame was transmitted. -/
def send (b : Blynk) (frame : List Nat) (send_anyway : Bool) :
    Blynk × List Event :=
  if b.tx_count < MAX_MSG_PER_SEC ∨ send_anyway then
    ({ b with tx_count := b.tx_count + 1 },
     [Event.sendCall frame send_anyway true])
  else
    (b, [Event.sendCall frame send_anyway false])

/-- Blynk._close (lines 255-258): close the socket, go Disconnected
(the reconnect-delay sleep has no state effect). -/
def close (b : Blynk) : Blynk :=
  { b with state := DISCONNECTED }

/-- NUL byte separator string used by the payload codec. -/
def nulStr : String := String.mk [Char.ofNat 0]

/-- bytes(s, 'ascii') for the strings the code joins into payloads. -/
def encodeAscii (s : String) : List Nat :=
  s.data.map Char.toNat

/-- Value of an ASCII decimal digit. -/
def digit_val (c : Char) : Option Nat :=
  if 48 ≤ c.toNat ∧ c.toNat ≤ 57 then some (c.toNat - 48) else none

/-- Accumulating decimal parse of a digit sequence. -/
def digits_to_nat (acc : Nat) : List Char → Option Nat
  | [] => some acc
  | c :: cs =>
    match digit_val c with
    | none => none
    | some d => digits_to_nat (acc * 10 + d) cs

/-- Python int(token) on the ASCII tokens of the protocol payloads:
an optional leading minus followed by at least one decimal digit;
anything else raises ValueError (modelled as none). -/
def parse_int (s : String) : Option Int :=
  match s.data with
  | [] => none
  | c :: cs =>
    if c = '-' then
      match cs with
      | [] => none
      | _ => (digits_to_nat 0 cs).map (fun n => -(n : Int))
    else
      (digits_to_nat 0 (c :: cs)).map (fun n => (n : Int))

/-- token.decode('ascii') for a NUL-free byte token. -/
def decodeAscii (l : List Nat) : String :=
  String.mk (l.map Char.ofNat)

/-- data.split(b'\x00') over a byte string (Python semantics: the
empty string splits to one empty token). -/
def splitOnNul : List Nat → List (List Nat)
  | [] => [[]]
  | 0 :: xs => [] :: splitOnNul xs
  | x :: xs =>
      match splitOnNul xs with
      | t :: ts => (x :: t) :: ts
      | [] => [[x]]

/-- Blynk._format_msg (lines 167-169): NUL-join the stringified
arguments, consume a fresh message id, and prepend the packed header. -/
def format_msg (b : Blynk) (msg_type : Nat) (args : List String) :
    Blynk × List Nat :=
  let data := encodeAscii (String.intercalate nulStr args)
  let (b2, id) := new_msg_id b
  (b2, pack_header msg_type id data.length ++ data)

/-- Blynk._server_alive (lines 260-273): once per new wall-clock
second reset the rate window, feed the watchdog, declare the server
dead if a heartbeat is outstanding past MAX_SOCK_TO, and send a new
priority PING when the heartbeat period has elapsed while
authenticated. Returns (state, events, alive). -/
def server_alive (b : Blynk) (c_time : Int) : Blynk × List Event × Bool :=
  if b.m_time ≠ c_time then
    let b1 := { b with m_time := c_time, tx_count := 0 }
    let evs := if b1.wdt then [Event.wdtFeed] else []
    if b1.last_hb_id ≠ 0 ∧ MAX_SOCK_TO ≤ c_time - b1.hb_time then
      (b1, evs, false)
    else if HB_PERIOD ≤ c_time - b1.hb_time ∧ b1.state = AUTHENTICATED then
      let b3 := { (new_msg_id b1).1 with
        hb_time := c_time, last_hb_id := (new_msg_id b1).2 }
      ((send b3 (pack_header MSG_PING (new_msg_id b1).2 0) true).1,
       evs ++ (send b3 (pack_header MSG_PING (new_msg_id b1).2 0) true).2,
       true)
    else
      (b1, evs, true)
  else
    (b, [], true)

/-- State reset at authenticated-phase entry (run() lines 368-370):
no heartbeat outstanding, fresh rate window. -/
def auth_enter (b : Blynk) : Blynk :=
  { b with hb_time := 0, last_hb_id := 0, tx_count := 0 }

/-- Pairing of the pm parameter list: zip(params[0::2], params[1::2]),
which pairs consecutive tokens and drops a trailing unmatched one. -/
def pm_zip : List String → List (String × String)
  | p :: m :: rest => (p, m) :: pm_zip rest
  | _ => []

/-- The pin-mode registration loop of _handle_hw (lines 177-182):
int(pin) may raise ValueError, a mode outside in/out/pu/pd raises
ValueError; registrations made before a raise persist (the dict was
mutated in place). -/
def pm_pairs (b : Blynk) : List (String × String) →
    Blynk × List Event × Option PyErr
  | [] => (b, [], none)
  | (pinStr, mode) :: rest =>
    match parse_int pinStr with
    | none => (b, [], some PyErr.valueError)
    | some pin =>
      if mode ≠ "in" ∧ mode ≠ "out" ∧ mode ≠ "pu" ∧ mode ≠ "pd" then
        (b, [], some PyErr.valueError)
      else
        let b2 := { b with
          hw_pins := alist_insert pin (HwPin.init mode mode) b.hw_pins }
        let (b3, evs, e) := pm_pairs b2 rest
        (b3, Event.hwNew pin mode mode :: evs, e)

/-- Blynk._handle_hw (lines 171-209): split the payload on NUL bytes,
decode the tokens, and dispatch on the command token. Hardware
read/write commands are reached only behind the pins-configured gate.
Returns (state, events, raised exception if any). -/
def handle_hw (b : Blynk) (dataB : List Nat) :
    Blynk × List Event × Option PyErr :=
  match (splitOnNul dataB).map decodeAscii with
  | [] => (b, [], some PyErr.indexError)
  | cmd :: ps =>
    if cmd = "info" then
      (b, [], none)
    else if cmd = "pm" then
      let (b2, evs, e) := pm_pairs b (pm_zip ps)
      match e with
      | some e2 => (b2, evs, some e2)
      | none => ({ b2 with pins_configured := true }, evs, none)
    else if cmd = "vw" then
      match ps with
      | [] => (b, [], some PyErr.indexError)
      | pinStr :: rest =>
        match parse_int pinStr with
        | none => (b, [], some PyErr.valueError)
        | some pin =>
          if (alist_lookup pin b.vr_pins).any (fun v => v.hasWrite) then
            (b, rest.map (Event.vwCall pin), none)
          else
            (b, [], none)
    else if cmd = "vr" then
      match ps with
      | [] => (b, [], some PyErr.indexError)
      | pinStr :: _ =>
        match parse_int pinStr with
        | none => (b, [], some PyErr.valueError)
        | some pin =>
          if (alist_lookup pin b.vr_pins).any (fun v => v.hasRead) then
            (b, [Event.vrCall pin], none)
          else
            (b, [], none)
    else if b.pins_configured then
      if cmd = "dw" then
        match ps with
        | [] => (b, [], some PyErr.indexError)
        | pinStr :: ps1 =>
          match parse_int pinStr with
          | none => (b, [], some PyErr.valueError)
          | some pin =>
            match ps1 with
            | [] => (b, [], some PyErr.indexError)
            | valStr :: _ =>
              match parse_int valStr with
              | none => (b, [], some PyErr.valueError)
              | some v =>
                match alist_lookup pin b.hw_pins with
                | none => (b, [], some PyErr.keyError)
                | some hp =>
                  ({ b with
                      hw_pins := alist_insert pin (hp.digital_write v) b.hw_pins },
                   [Event.digWrite pin v], none)
      else if cmd = "aw" then
        match ps with
        | [] => (b, [], some PyErr.indexError)
        | pinStr :: ps1 =>
          match parse_int pinStr with
          | none => (b, [], some PyErr.valueError)
          | some pin =>
            match ps1 with
            | [] => (b, [], some PyErr.indexError)
            | valStr :: _ =>
              match parse_int valStr with
              | none => (b, [], some PyErr.valueError)
              | some v =>
                match alist_lookup pin b.hw_pins with
                | none => (b, [], some PyErr.keyError)
                | some hp =>
                  ({ b with
                      hw_pins := alist_insert pin (hp.analog_write v) b.hw_pins },
                   [Event.anaWrite pin v], none)
      else if cmd = "dr" then
        match ps with
        | [] => (b, [], some PyErr.indexError)
        | pinStr :: _ =>
          match parse_int pinStr with
          | none => (b, [], some PyErr.valueError)
          | some pin =>
            match alist_lookup pin b.hw_pins with
            | none => (b, [], some PyErr.keyError)
            | some hp =>
              let (hp2, v) := hp.digital_read
              let b2 := { b with hw_pins := alist_insert pin hp2 b.hw_pins }
              let (b3, frame) :=
                format_msg b2 MSG_HW ["dw", toString pin, toString v]
              let (b4, evs) := send b3 frame false
              (b4, Event.digRead pin v :: evs, none)
      else if cmd = "ar" then
        match ps with
        | [] => (b, [], some PyErr.indexError)
        | pinStr :: _ =>
          match parse_int pinStr with
          | none => (b, [], some PyErr.valueError)
          | some pin =>
            match alist_lookup pin b.hw_pins with
            | none => (b, [], some PyErr.keyError)
            | some hp =>
              let (hp2, v) := hp.analog_read
              let b2 := { b with hw_pins := alist_insert pin hp2 b.hw_pins }
              let (b3, frame) :=
                format_msg b2 MSG_HW ["aw", toString pin, toString v]
              let (b4, evs) := send b3 frame false
              (b4, Event.anaRead pin v :: evs, none)
      else
        (b, [], none)
    else
      (b, [], none)

/-- Blynk.notify (lines 287-289): format and hand the NOTIFY frame to
the send pipeline only while authenticated. -/
def notify (b : Blynk) (msg : String) : Blynk × List Event :=
  if b.state = AUTHENTICATED then
    let (b2, frame) := format_msg b 14 [msg]
    send b2 frame false
  else
    (b, [])

/-- Blynk.email (lines 291-293): format and hand the EMAIL frame to
the send pipeline only while authenticated. -/
def email (b : Blynk) (dest subject body : String) : Blynk × List Event :=
  if b.state = AUTHENTICATED then
    let (b2, frame) := format_msg b 13 [dest, subject, body]
    send b2 frame false
  else
    (b, [])

/-- Blynk.virtual_write (lines 295-297): format and hand the HW vw
frame to the send pipeline only while authenticated (pin and value
already stringified, as str() does inside _format_msg). -/
def virtual_write (b : Blynk) (pin val : String) : Blynk × List Event :=
  if b.state = AUTHENTICATED then
    let (b2, frame) := format_msg b MSG_HW ["vw", pin, val]
    send b2 frame false
  else
    (b, [])

/-- Control outcome of one authenticated-phase loop iteration. -/
inductive StepRes where
  | cont
  | closed
  | raised (e : PyErr)
deriving DecidableEq, Repr

/-- Result of one authenticated-phase loop iteration: new client
state, remaining socket queue, events, and the control outcome. -/
structure StepOut where
  b : Blynk
  conn : List Nat
  evs : List Event
  res : StepRes
deriving DecidableEq, Repr

/-- Tail of each loop iteration (run() lines 392-395): close and break
when _server_alive declares the connection dead, otherwise run the
user task (external, no protocol effect) and continue. -/
def alive_check (b : Blynk) (conn : List Nat) (evs : List Event)
    (c_time : Int) : StepOut :=
  if (server_alive b c_time).2.2 then
    ⟨(server_alive b c_time).1, conn,
     evs ++ (server_alive b c_time).2.1, StepRes.cont⟩
  else
    ⟨close (server_alive b c_time).1, conn,
     evs ++ (server_alive b c_time).2.1, StepRes.closed⟩

/-- One iteration of the authenticated-phase loop body (run() lines
371-395): non-blocking header read; on a complete header dispatch by
message type (id 0 and unknown types close the connection; HW/BRIDGE
frames read the payload with a bounded wait and hand it to
_handle_hw, whose exceptions propagate uncaught); then the liveness
check and the user task. The idle sleep when no data is available has
no state effect. -/
def run_body (b : Blynk) (conn : List Nat) (c_time : Int) : StepOut :=
  let (b1, conn1, data) := recv b conn HDR_LEN
  if data = [] then
    alive_check b1 conn1 [] c_time
  else
    match unpack_header data with
    | none => ⟨b1, conn1, [], StepRes.raised PyErr.structError⟩
    | some (msg_type, msg_id, msg_len) =>
      if msg_id = 0 then
        ⟨close b1, conn1, [], StepRes.closed⟩
      else if msg_type = MSG_RSP then
        let b2 := if msg_id = b1.last_hb_id then
                    { b1 with last_hb_id := 0 } else b1
        alive_check b2 conn1 [] c_time
      else if msg_type = MSG_PING then
        let (b2, evs) := send b1 (pack_header MSG_RSP msg_id STA_SUCCESS) true
        alive_check b2 conn1 evs c_time
      else if msg_type = MSG_HW ∨ msg_type = MSG_BRIDGE then
        let (b2, conn2, pdata) := recv b1 conn1 msg_len
        if pdata = [] then
          alive_check b2 conn2 [] c_time
        else
          let (b3, evs, err) := handle_hw b2 pdata
          match err with
          | some e => ⟨b3, conn2, Event.dispatchHw pdata :: evs, StepRes.raised e⟩
          | none => alive_check b3 conn2 (Event.dispatchHw pdata :: evs) c_time
      else
        ⟨close b1, conn1, [], StepRes.closed⟩

/-- The login handshake of run() after a successful transport connect
(lines 351-364): go Authenticating, send the LOGIN frame as a
priority send, wait (bounded) for a 5-byte response header, and
require status 200 with a nonzero id to become Authenticated; any
other outcome closes the connection. -/
def auth_attempt (b : Blynk) (conn : List Nat) : StepOut :=
  let b1 := { b with state := AUTHENTICATING }
  let (b2, id) := new_msg_id b1
  let frame := pack_header MSG_LOGIN id b2.token.length ++ b2.token
  let (b3, evs) := send b2 frame true
  let (b4, conn1, data) := recv b3 conn HDR_LEN
  if data = [] then
    ⟨close b4, conn1, evs, StepRes.closed⟩
  else
    match unpack_header data with
    | none => ⟨b4, conn1, evs, StepRes.raised PyErr.structError⟩
    | some (_, msg_id, status) =>
      if status ≠ STA_SUCCESS ∨ msg_id = 0 then
        ⟨close b4, conn1, evs, StepRes.closed⟩
      else
        ⟨{ b4 with state := AUTHENTICATED }, conn1, evs, StepRes.cont⟩

/-- Client state after the n-th _new_msg_id call on a freshly
initialized client (run() sets the counter to 1). -/
def gen_state (token : List Nat) : Nat → Blynk
  | 0 => run_init token
  | n + 1 => (new_msg_id (gen_state token n)).1

/-- The id returned by the (n+1)-th _new_msg_id call on a freshly
initialized client. -/
def gen_id (token : List Nat) (n : Nat) : Nat :=
  (new_msg_id (gen_state token n)).2

/-- A batch of _send calls with the given send_anyway flags (the frame
content is irrelevant to the rate limiter; the empty frame is used). -/
def sendAll (b : Blynk) : List Bool → Blynk × List Event
  | [] => (b, [])
  | sa :: rest =>
    ((sendAll (send b [] sa).1 rest).1,
     (send b [] sa).2 ++ (sendAll (send b [] sa).1 rest).2)

/-- Predicate: a transmitted send. -/
def is_ok_send : Event → Bool
  | Event.sendCall _ _ ok => ok
  | _ => false

/-- Predicate: a rate-limited (dropped) send. -/
def is_drop_send : Event → Bool
  | Event.sendCall _ _ ok => !ok
  | _ => false

/-- Predicate: a transmitted regular (non-priority) send. -/
def is_ok_reg_send : Event → Bool
  | Event.sendCall _ anyway ok => ok && !anyway
  | _ => false

/-- Predicate: a transmitted priority send. -/
def is_ok_pri_send : Event → Bool
  | Event.sendCall _ anyway ok => ok && anyway
  | _ => false

/-- Number of transmitted sends among the events. -/
def count_ok (evs : List Event) : Nat := (evs.filter is_ok_send).length

/-- Number of dropped sends among the events. -/
def count_drop (evs : List Event) : Nat := (evs.filter is_drop_send).length

/-- Number of transmitted regular sends among the events. -/
def count_ok_reg (evs : List Event) : Nat := (evs.filter is_ok_reg_send).length

/-- Number of transmitted priority sends among the events. -/
def count_ok_pri (evs : List Event) : Nat := (evs.filter is_ok_pri_send).length

/-- A freshly initialized client that has reached the authenticated
phase (concrete scenario input). -/
def b_auth : Blynk := { run_init [] with state := AUTHENTICATED }

/-- An authenticated client with heartbeat ping id 5 outstanding,
sent at wall-clock second 0 (concrete scenario input). -/
def b_hb : Blynk := { run_init [] with state := AUTHENTICATED, last_hb_id := 5 }

/-- Payload bytes of the command "pm\x004\x00in" (configure pin 4 as
input). -/
def pm_in_payload : List Nat := [112, 109, 0, 52, 0, 105, 110]

/-- Payload bytes of the command "pm\x004\x00xx" (invalid mode token). -/
def pm_bad_payload : List Nat := [112, 109, 0, 52, 0, 120, 120]

/-- Socket bytes for an HW frame with id 1 carrying the invalid
pin-mode command, delivered whole. -/
def conn_bad_pm : List Nat := pack_header MSG_HW 1 7 ++ pm_bad_payload

/-- First-iteration socket bytes of the partial-payload scenario: the
full HW header (id 1, length 7) plus only the first 3 payload bytes
of "pm\x004\x00in". -/
def conn_partial1 : List Nat := pack_header MSG_HW 1 7 ++ [112, 109, 0]

/-- Second-iteration socket bytes of the partial-payload scenario:
the remaining 4 payload bytes. -/
def conn_partial2 : List Nat := [52, 0, 105, 110]

/-- Payload bytes of the command "dw\x004\x001" (digital write 1 to
pin 4). -/
def dw_payload : List Nat := [100, 119, 0, 52, 0, 49]

/-- Client state after a pm command configured pin 4 as input
(concrete scenario input). -/
def b_pm : Blynk :=
  { run_init [] with
    hw_pins := [(4, HwPin.init "in" "in")],
    pins_configured := true }

theorem unpack_pack (t i l : Nat) (ht : t < 256) (hi : i < 65536)
    (hl : l < 65536) :
    unpack_header (pack_header t i l) = some (t, i, l) := by
  simp only [pack_header, unpack_header, Option.some.injEq, Prod.mk.injEq]
  omega

theorem gen_state_msg_id (token : List Nat) (n : Nat) :
    (gen_state token n).msg_id = n % 65535 + 1 := by
  induction n with
  | zero => rfl
  | succ n ih =>
    simp only [gen_state, new_msg_id, ih]
    split <;> omega

theorem gen_id_eq (token : List Nat) (n : Nat) :
    gen_id token n = (n + 1) % 65535 + 1 := by
  have h2 : gen_id token n = (gen_state token (n + 1)).msg_id := rfl
  rw [h2, gen_state_msg_id]

/-- C9: for every valid header triple (type < 256, id < 65536,
length < 65536), packing the 5-byte big-endian header and unpacking
it reproduces exactly the original triple. -/
theorem c9_header_roundtrip (t i l : Nat) (ht : t < 256) (hi : i < 65536)
    (hl : l < 65536) :
    unpack_header (pack_header t i l) = some (t, i, l) :=
  unpack_pack t i l ht hi hl

theorem c9_header_roundtrip_witness :
    20 < 256 ∧ unpack_header (pack_header 20 1 4) = some (20, 1, 4) :=
  ⟨by decide, c9_header_roundtrip 20 1 4 (by decide) (by decide) (by decide)⟩

/-- C1: on a freshly initialized client (counter set to 1 by run()),
no generated message id ever equals 0, and the id generated
immediately after the generator has returned 0xFFFF is 1. -/
theorem c1_msg_id_sequencing (token : List Nat) (n : Nat) :
    gen_id token n ≠ 0 ∧
      (gen_id token n = 0xFFFF → gen_id token (n + 1) = 1) := by
  simp only [gen_id_eq]
  constructor
  · omega
  · intro h
    omega

theorem c1_msg_id_sequencing_witness :
    gen_id [] 65533 ≠ 0 ∧ gen_id [] 65534 = 1 :=
  ⟨(c1_msg_id_sequencing [] 65533).1,
   (c1_msg_id_sequencing [] 65533).2 (by rw [gen_id_eq])⟩

theorem length_filter_cons (p : Event → Bool) (e : Event) (l : List Event) :
    (List.filter p (e :: l)).length =
      (if p e then 1 else 0) + (List.filter p l).length := by
  rw [List.filter_cons]
  split <;> simp [Nat.add_comm]

theorem pack_header_length (t i l : Nat) :
    (pack_header t i l).length = HDR_LEN := rfl

theorem pack_header_ne_nil (t i l : Nat) : pack_header t i l ≠ [] := by
  simp [pack_header]

theorem recv_exact (b : Blynk) (frame rest : List Nat) (hrx : b.rx_data = []) :
    recv b (frame ++ rest) frame.length
      = ({ b with rx_data := [] }, rest, frame) := by
  simp [recv, hrx, List.take_left, List.drop_left]

theorem recv_frame (b : Blynk) (frame : List Nat) (hrx : b.rx_data = [])
    (hlen : frame.length = HDR_LEN) :
    recv b frame HDR_LEN = ({ b with rx_data := [] }, [], frame) := by
  have h := recv_exact b frame [] hrx
  rw [List.append_nil, hlen] at h
  exact h

theorem sendAll_reg (R : Nat) : ∀ b : Blynk,
    count_ok (sendAll b (List.replicate R false)).2
        = min R (MAX_MSG_PER_SEC - b.tx_count) ∧
    count_drop (sendAll b (List.replicate R false)).2
        = R - min R (MAX_MSG_PER_SEC - b.tx_count) ∧
    count_ok_reg (sendAll b (List.replicate R false)).2
        = min R (MAX_MSG_PER_SEC - b.tx_count) := by
  induction R with
  | zero =>
    intro b
    simp [sendAll, count_ok, count_drop, count_ok_reg]
  | succ R ih =>
    intro b
    by_cases h : b.tx_count < MAX_MSG_PER_SEC
    · have hs : send b [] false =
          ({ b with tx_count := b.tx_count + 1 },
           [Event.sendCall [] false true]) := by
        simp [send, h]
      obtain ⟨i1, i2, i3⟩ := ih { b with tx_count := b.tx_count + 1 }
      simp only [count_ok, count_drop, count_ok_reg] at i1 i2 i3 ⊢
      simp only [List.replicate_succ, sendAll, hs, List.filter_append,
        List.length_append]
      have e1 : (List.filter is_ok_send
          [Event.sendCall [] false true]).length = 1 := rfl
      have e2 : (List.filter is_drop_send
          [Event.sendCall [] false true]).length = 0 := rfl
      have e3 : (List.filter is_ok_reg_send
          [Event.sendCall [] false true]).length = 1 := rfl
      rw [e1, e2, e3, i1, i2, i3]
      omega
    · have hs : send b [] false = (b, [Event.sendCall [] false false]) := by
        simp [send, h]
      obtain ⟨i1, i2, i3⟩ := ih b
      simp only [count_ok, count_drop, count_ok_reg] at i1 i2 i3 ⊢
      simp only [List.replicate_succ, sendAll, hs, List.filter_append,
        List.length_append]
      have e1 : (List.filter is_ok_send
          [Event.sendCall [] false false]).length = 0 := rfl
      have e2 : (List.filter is_drop_send
          [Event.sendCall [] false false]).length = 1 := rfl
      have e3 : (List.filter is_ok_reg_send
          [Event.sendCall [] false false]).length = 0 := rfl
      rw [e1, e2, e3, i1, i2, i3]
      omega

theorem sendAll_pri (P : Nat) : ∀ b : Blynk,
    (sendAll b (List.replicate P true)).1
        = { b with tx_count := b.tx_count + P } ∧
    (sendAll b (List.replicate P true)).2
        = List.replicate P (Event.sendCall [] true true) := by
  induction P with
  | zero =>
    intro b
    simp [sendAll]
  | succ P ih =>
    intro b
    have hs : send b [] true =
        ({ b with tx_count := b.tx_count + 1 },
         [Event.sendCall [] true true]) := by
      simp [send]
    have h2 := ih { b with tx_count := b.tx_count + 1 }
    simp only [List.replicate_succ, sendAll, hs] at h2 ⊢
    refine ⟨?_, ?_⟩
    · rw [h2.1]
      have : b.tx_count + 1 + P = b.tx_count + (P + 1) := by omega
      rw [this]
    · rw [h2.2]
      rfl

theorem sendAll_append (l1 l2 : List Bool) : ∀ b : Blynk,
    sendAll b (l1 ++ l2) =
      ((sendAll (sendAll b l1).1 l2).1,
       (sendAll b l1).2 ++ (sendAll (sendAll b l1).1 l2).2) := by
  induction l1 with
  | nil =>
    intro b
    simp [sendAll]
  | cons sa rest ih =>
    intro b
    simp only [List.cons_append, sendAll, List.append_eq]
    rw [ih (send b [] sa).1]
    simp [List.append_assoc]

/-- C3: within one one-second rate window (tx counter 0) in which only
regular sends occur and the transport accepts every send, submitting
MAX_MSG_PER_SEC + 1 regular messages transmits exactly MAX_MSG_PER_SEC
of them and drops exactly 1 silently; a priority send (send_anyway) is
always transmitted, whatever the counter value. -/
theorem c3_rate_limiting (b : Blynk) (hb : b.tx_count = 0) :
    count_ok (sendAll b (List.replicate (MAX_MSG_PER_SEC + 1) false)).2
        = MAX_MSG_PER_SEC ∧
    count_drop (sendAll b (List.replicate (MAX_MSG_PER_SEC + 1) false)).2
        = 1 ∧
    ∀ (b2 : Blynk) (frame : List Nat),
      send b2 frame true = ({ b2 with tx_count := b2.tx_count + 1 },
        [Event.sendCall frame true true]) := by
  have h := sendAll_reg (MAX_MSG_PER_SEC + 1) b
  refine ⟨?_, ?_, ?_⟩
  · rw [h.1, hb]
    rfl
  · rw [h.2.1, hb]
    rfl
  · intro b2 frame
    simp [send]

theorem c3_rate_limiting_witness :
    count_ok (sendAll (run_init [])
        (List.replicate (MAX_MSG_PER_SEC + 1) false)).2 = MAX_MSG_PER_SEC ∧
    count_drop (sendAll (run_init [])
        (List.replicate (MAX_MSG_PER_SEC + 1) false)).2 = 1 :=
  ⟨(c3_rate_limiting (run_init []) rfl).1,
   (c3_rate_limiting (run_init []) rfl).2.1⟩

theorem c10_counterexample :
    count_ok_reg (sendAll (run_init [])
        (List.replicate 20 false ++ [true])).2 = 20 ∧
    count_ok_pri (sendAll (run_init [])
        (List.replicate 20 false ++ [true])).2 = 1 ∧
    ¬(count_ok_reg (sendAll (run_init [])
          (List.replicate 20 false ++ [true])).2
        ≤ MAX_MSG_PER_SEC -
          count_ok_pri (sendAll (run_init [])
            (List.replicate 20 false ++ [true])).2) := by
  decide

/-- C10 (amended): every send the transport accepts increments the
per-second rate counter, priority sends included; consequently, in a
one-second window (tx counter 0) in which P priority sends all occur
before the regular sends, the P priority sends are all transmitted
and at most MAX_MSG_PER_SEC - P regular sends are transmitted. -/
theorem count_pri_replicate (P : Nat) :
    count_ok_pri (List.replicate P (Event.sendCall [] true true)) = P := by
  induction P with
  | zero => rfl
  | succ P ih =>
    rw [List.replicate_succ]
    simp only [count_ok_pri] at ih ⊢
    rw [length_filter_cons]
    have he : is_ok_pri_send (Event.sendCall [] true true) = true := rfl
    rw [he, ih]
    simp only [if_pos]
    omega

theorem count_reg_replicate (P : Nat) :
    count_ok_reg (List.replicate P (Event.sendCall [] true true)) = 0 := by
  induction P with
  | zero => rfl
  | succ P ih =>
    rw [List.replicate_succ]
    simp only [count_ok_reg] at ih ⊢
    rw [length_filter_cons]
    have he : is_ok_reg_send (Event.sendCall [] true true) = false := rfl
    rw [he, ih]
    simp

theorem count_pri_reg_zero (R : Nat) : ∀ b : Blynk,
    count_ok_pri (sendAll b (List.replicate R false)).2 = 0 := by
  induction R with
  | zero => intro b; rfl
  | succ R ih =>
    intro b
    simp only [List.replicate_succ, sendAll, count_ok_pri,
      List.filter_append, List.length_append]
    have h2 := ih (send b [] false).1
    simp only [count_ok_pri] at h2
    rw [h2]
    by_cases h : b.tx_count < MAX_MSG_PER_SEC
    · have hs : send b [] false =
          ({ b with tx_count := b.tx_count + 1 },
           [Event.sendCall [] false true]) := by
        simp [send, h]
      rw [hs]
      rfl
    · have hs : send b [] false = (b, [Event.sendCall [] false false]) := by
        simp [send, h]
      rw [hs]
      rfl

/-- C10 (amended): every send the transport accepts increments the
per-second rate counter, priority sends included; consequently, in a
one-second window (tx counter 0) in which P priority sends all occur
before the regular sends, the P priority sends are all transmitted
and at most MAX_MSG_PER_SEC - P regular sends are transmitted. -/
theorem c10_priority_budget (b : Blynk) (frame : List Nat) (sa : Bool)
    (P R : Nat) (hb : b.tx_count = 0) :
    (send b frame sa).1.tx_count =
      (if b.tx_count < MAX_MSG_PER_SEC ∨ sa then b.tx_count + 1
       else b.tx_count) ∧
    count_ok_pri (sendAll b
        (List.replicate P true ++ List.replicate R false)).2 = P ∧
    count_ok_reg (sendAll b
        (List.replicate P true ++ List.replicate R false)).2
      ≤ MAX_MSG_PER_SEC - P := by
  have hpri := sendAll_pri P b
  have happ := sendAll_append (List.replicate P true) (List.replicate R false) b
  refine ⟨?_, ?_, ?_⟩
  · simp only [send]
    split <;> rfl
  · rw [happ]
    simp only [count_ok_pri, List.filter_append, List.length_append]
    have h1 := count_pri_replicate P
    have h2 := count_pri_reg_zero R (sendAll b (List.replicate P true)).1
    rw [hpri.2]
    simp only [count_ok_pri] at h1 h2
    omega
  · rw [happ]
    simp only [count_ok_reg, List.filter_append, List.length_append]
    have h1 := count_reg_replicate P
    have h2 := (sendAll_reg R (sendAll b (List.replicate P true)).1).2.2
    have h4 : (sendAll b (List.replicate P true)).1.tx_count
        = b.tx_count + P := by
      rw [hpri.1]
    rw [h4, hb] at h2
    rw [hpri.2]
    simp only [count_ok_reg] at h1 h2
    rw [h1, h2]
    omega

theorem recv_header (b : Blynk) (t2 i l : Nat) (rest : List Nat)
    (hrx : b.rx_data = []) :
    recv b (pack_header t2 i l ++ rest) HDR_LEN
      = ({ b with rx_data := [] }, rest, pack_header t2 i l) := by
  have h := recv_exact b (pack_header t2 i l) rest hrx
  rwa [pack_header_length] at h

/-- C5: before any pm command has set the pins-configured gate, the
hardware commands dw/aw/dr/ar are ignored completely — no state
change, no hardware effect, nothing sent, no error; a well-formed pm
command registers the pin and sets the gate; once the gate is set, a
dw command for a registered pin performs the digital write on it. -/
theorem c5_dispatcher_gating (b : Blynk) (dataB : List Nat)
    (cmd : String) (ps : List String)
    (hsplit : (splitOnNul dataB).map decodeAscii = cmd :: ps) :
    (b.pins_configured = false →
      (cmd = "dw" ∨ cmd = "aw" ∨ cmd = "dr" ∨ cmd = "ar") →
      handle_hw b dataB = (b, [], none)) ∧
    (∀ (spin mode : String) (p : Int),
      cmd = "pm" → ps = [spin, mode] → parse_int spin = some p →
      (mode = "in" ∨ mode = "out" ∨ mode = "pu" ∨ mode = "pd") →
      handle_hw b dataB =
        ({ b with
            hw_pins := alist_insert p (HwPin.init mode mode) b.hw_pins,
            pins_configured := true },
         [Event.hwNew p mode mode], none)) ∧
    (∀ (spin sval : String) (rest2 : List String) (p v : Int)
        (hp : HwPin),
      cmd = "dw" → ps = spin :: sval :: rest2 →
      parse_int spin = some p → parse_int sval = some v →
      b.pins_configured = true → alist_lookup p b.hw_pins = some hp →
      handle_hw b dataB =
        ({ b with
            hw_pins := alist_insert p (hp.digital_write v) b.hw_pins },
         [Event.digWrite p v], none)) := by
  refine ⟨?_, ?_, ?_⟩
  · intro hconf hc
    rcases hc with h | h | h | h <;> subst h <;>
      simp [handle_hw, hsplit, hconf]
  · intro spin mode p hcmd hps hpin hm
    subst hcmd
    subst hps
    rcases hm with h | h | h | h <;> subst h <;>
      simp [handle_hw, hsplit, pm_zip, pm_pairs, hpin]
  · intro spin sval rest2 p v hp hcmd hps hpin hval hconf hlook
    subst hcmd
    subst hps
    simp [handle_hw, hsplit, hconf, hpin, hval, hlook]

theorem c5_dispatcher_gating_witness :
    handle_hw (run_init []) dw_payload = (run_init [], [], none) ∧
    handle_hw (run_init []) pm_in_payload =
      ({ run_init [] with
          hw_pins := [(4, HwPin.init "in" "in")],
          pins_configured := true }, [Event.hwNew 4 "in" "in"], none) ∧
    handle_hw b_pm dw_payload =
      ({ b_pm with hw_pins :=
          [(4, HwPin.digital_write (HwPin.init "in" "in") 1)] },
       [Event.digWrite 4 1], none) :=
  ⟨(c5_dispatcher_gating (run_init []) dw_payload "dw" ["4", "1"]
      rfl).1 rfl (Or.inl rfl),
   (c5_dispatcher_gating (run_init []) pm_in_payload "pm" ["4", "in"]
      rfl).2.1 "4" "in" 4 rfl rfl rfl (Or.inl rfl),
   (c5_dispatcher_gating b_pm dw_payload "dw" ["4", "1"] rfl).2.2
      "4" "1" [] 4 1 (HwPin.init "in" "in") rfl rfl rfl rfl rfl rfl⟩

theorem hw_pm_bad (b : Blynk) (dataB : List Nat) (spin mode : String)
    (p : Int)
    (hsplit : (splitOnNul dataB).map decodeAscii = ["pm", spin, mode])
    (hpin : parse_int spin = some p)
    (hm : mode ≠ "in" ∧ mode ≠ "out" ∧ mode ≠ "pu" ∧ mode ≠ "pd") :
    handle_hw b dataB = (b, [], some PyErr.valueError) := by
  simp [handle_hw, hsplit, pm_zip, pm_pairs, hpin, hm.1, hm.2.1,
    hm.2.2.1, hm.2.2.2]

theorem c4_counterexample :
    (run_body b_auth conn_bad_pm 0).res ≠ StepRes.cont ∧
    (run_body b_auth conn_bad_pm 0).res
      = StepRes.raised PyErr.valueError := by
  constructor
  · rw [show (run_body b_auth conn_bad_pm 0).res
        = StepRes.raised PyErr.valueError from rfl]
    intro h
    exact StepRes.noConfusion h
  · rfl

/-- C4 (amended): a received pm command containing a pin-mode token
outside {in, out, pu, pd} makes _handle_hw raise a ValueError decode
error that nothing in run() catches: the dispatch-loop iteration ends
with the exception propagating instead of continuing, so the loop
stops processing frames on that connection (the library itself does
not close the socket before propagating). -/
theorem c4_bad_pin_mode (b : Blynk) (dataB : List Nat)
    (spin mode : String) (p : Int) (mid : Nat) (t : Int)
    (hsplit : (splitOnNul dataB).map decodeAscii = ["pm", spin, mode])
    (hpin : parse_int spin = some p)
    (hm : mode ≠ "in" ∧ mode ≠ "out" ∧ mode ≠ "pu" ∧ mode ≠ "pd")
    (hrx : b.rx_data = []) (hmid : mid ≠ 0) (hmid2 : mid < 65536)
    (hlen : dataB.length < 65536) :
    handle_hw b dataB = (b, [], some PyErr.valueError) ∧
    (run_body b (pack_header MSG_HW mid dataB.length ++ dataB) t).res
      = StepRes.raised PyErr.valueError := by
  have hh := hw_pm_bad b dataB spin mode p hsplit hpin hm
  refine ⟨hh, ?_⟩
  have hne : dataB ≠ [] := by
    intro h0
    rw [h0] at hsplit
    simp [splitOnNul, decodeAscii] at hsplit
  have hr1 := recv_header b 20 mid dataB.length dataB hrx
  have hr2 : recv { b with rx_data := ([] : List Nat) } dataB
      dataB.length = ({ b with rx_data := [] }, [], dataB) := by
    have h := recv_exact { b with rx_data := ([] : List Nat) } dataB [] rfl
    rwa [List.append_nil] at h
  have hu : unpack_header (pack_header 20 mid dataB.length)
      = some (20, mid, dataB.length) :=
    unpack_pack _ _ _ (by norm_num) hmid2 hlen
  have hh2 := hw_pm_bad { b with rx_data := ([] : List Nat) } dataB
      spin mode p hsplit hpin hm
  simp [run_body, hr1, hr2, hu, hh2, hne, hmid, MSG_RSP, MSG_PING,
    MSG_HW, MSG_BRIDGE, pack_header_ne_nil]

theorem c4_bad_pin_mode_witness :
    handle_hw b_auth pm_bad_payload
      = (b_auth, [], some PyErr.valueError) ∧
    (run_body b_auth (pack_header MSG_HW 1 pm_bad_payload.length
        ++ pm_bad_payload) 0).res = StepRes.raised PyErr.valueError :=
  ⟨(c4_bad_pin_mode b_auth pm_bad_payload "4" "xx" 4 1 0 rfl rfl
      ⟨by decide, by decide, by decide, by decide⟩ rfl (by decide)
      (by decide) (by decide)).1,
   (c4_bad_pin_mode b_auth pm_bad_payload "4" "xx" 4 1 0 rfl rfl
      ⟨by decide, by decide, by decide, by decide⟩ rfl (by decide)
      (by decide) (by decide)).2⟩

/-- C7 evidence of the divergence: an HW frame (type 20, id 1,
length 7) whose payload "pm\x004\x00in" arrives as 3 bytes in one
loop iteration and the remaining 4 bytes in the next is never handed
to _handle_hw. The first iteration buffers the 3 available payload
bytes and continues; the next iteration re-reads a 5-byte header, so
it consumes the buffered payload bytes as a bogus header of unknown
type 112 and closes the connection. No dispatch event occurs in
either iteration and the pin is never configured, although every
payload byte arrived. -/
theorem c7_partial_payload_lost :
    (run_body b_auth conn_partial1 0).res = StepRes.cont ∧
    (run_body b_auth conn_partial1 0).evs = [] ∧
    (run_body b_auth conn_partial1 0).b.rx_data = [112, 109, 0] ∧
    (run_body (run_body b_auth conn_partial1 0).b conn_partial2 0).res
      = StepRes.closed ∧
    (run_body (run_body b_auth conn_partial1 0).b conn_partial2 0).evs
      = [] ∧
    (run_body (run_body b_auth conn_partial1 0).b
        conn_partial2 0).b.state = DISCONNECTED ∧
    (run_body (run_body b_auth conn_partial1 0).b
        conn_partial2 0).b.pins_configured = false :=
  ⟨rfl, rfl, rfl, rfl, rfl, rfl, rfl⟩

theorem c2_counterexample :
    (auth_attempt (run_init [97, 98, 99]) (pack_header 0 1 200)).evs =
      [Event.sendCall (pack_header MSG_LOGIN 2 3 ++ [97, 98, 99]) true true] ∧
    unpack_header ((pack_header MSG_LOGIN 2 3 ++ [97, 98, 99]).take HDR_LEN)
      ≠ some (MSG_LOGIN, 1, 3) := by
  decide

/-- C2 (amended): the first LOGIN frame sent after run() initializes
the client carries message id 2 (the counter starts at 1 and is
incremented before use, so 2 is the first id the client generates),
and a server response header with status 200 and a nonzero id moves
the state to Authenticated. -/
theorem c2_login_scenario (token : List Nat) (mid status : Nat)
    (hmid : mid < 65536) (hst : status < 65536) :
    (auth_attempt (run_init token) (pack_header MSG_RSP mid status)).evs =
      [Event.sendCall (pack_header MSG_LOGIN 2 token.length ++ token)
        true true] ∧
    (status = STA_SUCCESS → mid ≠ 0 →
      (auth_attempt (run_init token)
          (pack_header MSG_RSP mid status)).b.state = AUTHENTICATED) := by
  have hu : unpack_header (pack_header MSG_RSP mid status)
      = some (MSG_RSP, mid, status) :=
    unpack_pack MSG_RSP mid status (by norm_num [MSG_RSP]) hmid hst
  constructor
  · simp [auth_attempt, run_init, new_msg_id, send, recv_frame,
      pack_header_length, hu, MAX_MSG_PER_SEC, pack_header_ne_nil]
    split <;> rfl
  · intro h1 h2
    subst h1
    simp [auth_attempt, run_init, new_msg_id, send, recv_frame,
      pack_header_length, hu, MAX_MSG_PER_SEC, h2, pack_header_ne_nil]

theorem c2_login_scenario_witness :
    (auth_attempt (run_init [97, 98, 99]) (pack_header MSG_RSP 1 200)).evs =
      [Event.sendCall (pack_header MSG_LOGIN 2 3 ++ [97, 98, 99])
        true true] ∧
    (auth_attempt (run_init [97, 98, 99])
        (pack_header MSG_RSP 1 200)).b.state = AUTHENTICATED :=
  ⟨(c2_login_scenario [97, 98, 99] 1 200 (by decide) (by decide)).1,
   (c2_login_scenario [97, 98, 99] 1 200 (by decide) (by decide)).2
     rfl (by decide)⟩

/-- C8: in every client state other than Authenticated, notify, email
and virtual_write send nothing on the transport and change no state;
in state Authenticated each call hands the formatted frame to the
send pipeline (one _send call with that frame). -/
theorem c8_authenticated_gate (b : Blynk)
    (msg dest subject body pin val : String) :
    (b.state ≠ AUTHENTICATED →
      notify b msg = (b, []) ∧
      email b dest subject body = (b, []) ∧
      virtual_write b pin val = (b, [])) ∧
    (b.state = AUTHENTICATED →
      (notify b msg).2 =
        [Event.sendCall (format_msg b 14 [msg]).2 false
          (decide (b.tx_count < MAX_MSG_PER_SEC))] ∧
      (email b dest subject body).2 =
        [Event.sendCall (format_msg b 13 [dest, subject, body]).2 false
          (decide (b.tx_count < MAX_MSG_PER_SEC))] ∧
      (virtual_write b pin val).2 =
        [Event.sendCall (format_msg b MSG_HW ["vw", pin, val]).2 false
          (decide (b.tx_count < MAX_MSG_PER_SEC))]) := by
  constructor
  · intro h
    refine ⟨?_, ?_, ?_⟩ <;> simp [notify, email, virtual_write, h]
  · intro h
    by_cases hc : b.tx_count < MAX_MSG_PER_SEC <;>
      refine ⟨?_, ?_, ?_⟩ <;>
        simp [notify, email, virtual_write, format_msg, new_msg_id,
          send, h, hc]

theorem c8_authenticated_gate_witness :
    notify (run_init []) "x" = (run_init [], []) ∧
    (notify b_auth "x").2 =
      [Event.sendCall (format_msg b_auth 14 ["x"]).2 false
        (decide (b_auth.tx_count < MAX_MSG_PER_SEC))] :=
  ⟨((c8_authenticated_gate (run_init []) "x" "" "" "" "" "").1
      (by decide)).1,
   ((c8_authenticated_gate b_auth "x" "" "" "" "" "").2 rfl).1⟩

theorem recv_empty (b : Blynk) (n : Nat) (hrx : b.rx_data = []) :
    recv b [] n = ({ b with rx_data := [] }, [], []) := by
  simp [recv, hrx]

theorem server_alive_dead (b : Blynk) (t : Int) (h1 : b.last_hb_id ≠ 0)
    (h2 : b.m_time ≠ t) (h3 : MAX_SOCK_TO ≤ t - b.hb_time) :
    (server_alive b t).2.2 = false := by
  simp [server_alive, h1, h2, h3]

/-- C6: while a heartbeat PING is outstanding and no matching RSP
arrives, the liveness check declares the connection dead exactly when
a new wall-clock second is seen and the time since the PING was sent
has reached MAX_SOCK_TO — never earlier; MAX_SOCK_TO is strictly
shorter than the heartbeat period; when the check triggers inside the
loop body the connection is closed and the loop exits (so the reset
happens once), and re-entering the authenticated phase clears the
outstanding heartbeat id. -/
theorem c6_heartbeat_liveness (b : Blynk) (t : Int)
    (hout : b.last_hb_id ≠ 0) :
    ((server_alive b t).2.2 = false ↔
      (b.m_time ≠ t ∧ MAX_SOCK_TO ≤ t - b.hb_time)) ∧
    MAX_SOCK_TO < HB_PERIOD ∧
    (b.rx_data = [] → b.m_time ≠ t → MAX_SOCK_TO ≤ t - b.hb_time →
      (run_body b [] t).res = StepRes.closed ∧
      (run_body b [] t).b.state = DISCONNECTED) ∧
    (auth_enter b).last_hb_id = 0 := by
  refine ⟨?_, by norm_num [MAX_SOCK_TO, HB_PERIOD], ?_, rfl⟩
  · by_cases hm : b.m_time = t
    · simp [server_alive, hm]
    · by_cases hd : MAX_SOCK_TO ≤ t - b.hb_time
      · simp [server_alive, hm, hout, hd]
      · simp only [server_alive, if_pos hm, hout]
        simp [hd, hm]
        split <;> simp
  · intro hrx hm hd
    have hrecv := recv_empty b HDR_LEN hrx
    have hdead : (server_alive { b with rx_data := ([] : List Nat) } t).2.2
        = false := by
      refine server_alive_dead _ t ?_ ?_ ?_ <;> simpa using by
        first
        | exact hout
        | exact hm
        | exact hd
    constructor
    · simp [run_body, hrecv, alive_check, hdead]
    · simp [run_body, hrecv, alive_check, hdead, close]

theorem c6_heartbeat_liveness_witness :
    (server_alive b_hb 5).2.2 = false ∧
    (run_body b_hb [] 5).res = StepRes.closed ∧
    (run_body b_hb [] 5).b.state = DISCONNECTED :=
  ⟨(c6_heartbeat_liveness b_hb 5 (by decide)).1.mpr
      ⟨by decide, by decide⟩,
   ((c6_heartbeat_liveness b_hb 5 (by decide)).2.2.1 rfl (by decide)
      (by decide)).1,
   ((c6_heartbeat_liveness b_hb 5 (by decide)).2.2.1 rfl (by decide)
      (by decide)).2⟩

theorem c10_priority_budget_witness :
    count_ok_pri (sendAll (run_init [])
        (List.replicate 2 true ++ List.replicate 30 false)).2 = 2 ∧
    count_ok_reg (sendAll (run_init [])
        (List.replicate 2 true ++ List.replicate 30 false)).2
      ≤ MAX_MSG_PER_SEC - 2 :=
  ⟨(c10_priority_budget (run_init []) [] true 2 30 rfl).2.1,
   (c10_priority_budget (run_init []) [] true 2 30 rfl).2.2⟩

end BlynkLib
